import Mathlib

/-!
Verification development for the excess-power scheduler (src/main.py).

The embedding below translates the decision core of the repository:
the device model (class ScheduleableDevice), the hysteresis scheduler
(ExcessPowerScheduler.schedule), the excess-power combination
(PowerScheduler.readHouseActivePower) and the register decoding helpers
of Sun2000Client (calculateRegisterOffset, the byte decoders and
readPowerMeter).

Actuator calls (ShellyRelayDevice.turnOn / turnOff) set the recorded
device state to whatever the relay reports back; the embedding models
that report as a function resp : String -> String mapping the command
("on" / "off") to the resulting recorded state. The scheduler in
addition returns the list of actuator invocations it performed, so that
theorems can speak about which device was actuated in a cycle.
-/

set_option maxHeartbeats 1000000
set_option linter.unnecessarySeqFocus false
set_option linter.unusedVariables false

/-- Device with known power consumption that can be scheduled
(class ScheduleableDevice in main.py): name, wattage, the per-device
counter times_wattage_exceeded, and the recorded state, one of
"on", "off", "unknown". -/
structure ScheduleableDevice where
  name : String
  wattage : Int
  times_wattage_exceeded : Nat
  state : String
  deriving DecidableEq, Repr

/-- Class constant POSITIVE_POWER_SAFETY_MARGIN of ExcessPowerScheduler. -/
def POSITIVE_POWER_SAFETY_MARGIN : Int := 100

/-- Class constant NEGATIVE_POWER_SAFETY_MARGIN of ExcessPowerScheduler. -/
def NEGATIVE_POWER_SAFETY_MARGIN : Int := -20

/-- Class constant POWER_ON_HYSTERESIS of ExcessPowerScheduler. -/
def POWER_ON_HYSTERESIS : Nat := 4

/-- Class constant POWER_OFF_HYSTERESIS of ExcessPowerScheduler. -/
def POWER_OFF_HYSTERESIS : Nat := 2

/-- One actuator invocation performed by the scheduler: the index (in
priority order, 0 first) of the device whose turnOn or turnOff method
was called during the cycle. -/
inductive SchedulerAction where
  | turnOn (index : Nat)
  | turnOff (index : Nat)
  deriving DecidableEq, Repr

/-- Mutable state of ExcessPowerScheduler: the device list (priority
order) and the global counter times_power_negative. -/
structure SchedulerState where
  devices : List ScheduleableDevice
  times_power_negative : Nat
  deriving DecidableEq, Repr

/-- ExcessPowerScheduler.__resetAllDeviceCounters: set every device
counter times_wattage_exceeded to 0. -/
def resetAllDeviceCounters (devs : List ScheduleableDevice) :
    List ScheduleableDevice :=
  devs.map fun d => { d with times_wattage_exceeded := 0 }

/-- The conditional counter increment of the surplus branch: when
power + POSITIVE_POWER_SAFETY_MARGIN exceeds the device wattage,
times_wattage_exceeded is incremented, otherwise the device is left
alone. -/
def bumpCounter (power : Int) (d : ScheduleableDevice) : ScheduleableDevice :=
  if power + POSITIVE_POWER_SAFETY_MARGIN > d.wattage
  then { d with times_wattage_exceeded := d.times_wattage_exceeded + 1 }
  else d

/-- The surplus-branch loop of ExcessPowerScheduler.schedule: walk the
devices in priority order; each device whose recorded state is "off"
has its counter conditionally incremented (bumpCounter), and the first
such device whose updated counter has reached POWER_ON_HYSTERESIS is
turned on (its recorded state becomes resp "on") and the loop breaks.
i is the absolute index of the head of the list being examined. -/
def scanTurnOn (resp : String → String) (power : Int) (i : Nat) :
    List ScheduleableDevice → List ScheduleableDevice × List SchedulerAction
  | [] => ([], [])
  | d :: rest =>
    if d.state = "off" then
      if POWER_ON_HYSTERESIS ≤ (bumpCounter power d).times_wattage_exceeded then
        ({ bumpCounter power d with state := resp "on" } :: rest,
         [SchedulerAction.turnOn i])
      else
        (bumpCounter power d :: (scanTurnOn resp power (i + 1) rest).1,
         (scanTurnOn resp power (i + 1) rest).2)
    else
      (d :: (scanTurnOn resp power (i + 1) rest).1,
       (scanTurnOn resp power (i + 1) rest).2)

/-- The deficit-branch loop of ExcessPowerScheduler.schedule: walk the
devices in reverse priority order (for dev in reversed(self.devices))
and turn off the first one whose recorded state is "on" (its recorded
state becomes resp "off"), then break. Expressed on the forward list:
first recurse into the tail; only when no device of the tail was turned
off is the head examined. -/
def scanTurnOff (resp : String → String) (i : Nat) :
    List ScheduleableDevice → List ScheduleableDevice × List SchedulerAction
  | [] => ([], [])
  | d :: rest =>
    if (scanTurnOff resp (i + 1) rest).2.isEmpty then
      if d.state = "on" then
        ({ d with state := resp "off" } :: (scanTurnOff resp (i + 1) rest).1,
         [SchedulerAction.turnOff i])
      else (d :: (scanTurnOff resp (i + 1) rest).1, [])
    else (d :: (scanTurnOff resp (i + 1) rest).1,
          (scanTurnOff resp (i + 1) rest).2)

/-- ExcessPowerScheduler.schedule. power = none models power == None
(unknown sample). Returns the new scheduler state together with the
list of actuator invocations performed during this cycle. -/
def schedule (resp : String → String) (power : Option Int)
    (s : SchedulerState) : SchedulerState × List SchedulerAction :=
  match power with
  | none => (s, [])
  | some p =>
    if POSITIVE_POWER_SAFETY_MARGIN < p then
      ({ devices := if (scanTurnOn resp p 0 s.devices).2.isEmpty
           then (scanTurnOn resp p 0 s.devices).1
           else resetAllDeviceCounters (scanTurnOn resp p 0 s.devices).1,
         times_power_negative := 0 },
       (scanTurnOn resp p 0 s.devices).2)
    else if p < NEGATIVE_POWER_SAFETY_MARGIN then
      if POWER_OFF_HYSTERESIS < s.times_power_negative + 1 then
        ({ devices := (scanTurnOff resp 0 s.devices).1,
           times_power_negative := 0 },
         (scanTurnOff resp 0 s.devices).2)
      else
        ({ devices := s.devices,
           times_power_negative := s.times_power_negative + 1 }, [])
    else
      ({ devices := s.devices, times_power_negative := 0 }, [])

/-- Actuator response of a relay whose HTTP call always succeeds:
turning "on" records state "on", turning "off" records state "off"
(the happy path of ShellyRelayDevice.turnRelais). -/
def idealResp (cmd : String) : String := cmd

/-- Iterate ExcessPowerScheduler.schedule over a list of samples,
keeping only the resulting state. -/
def scheduleRun (resp : String → String) (powers : List (Option Int))
    (s : SchedulerState) : SchedulerState :=
  powers.foldl (fun st p => (schedule resp p st).1) s

/-- Result of Sun2000Client.readPowerMeter (dataclass MeterValues):
Status is the entry of the MeterStatus table for the decoded status
code (None when the code is not in the table), ActivePower the decoded
signed active power. -/
structure MeterValues where
  Status : Option String
  ActivePower : Int
  deriving DecidableEq, Repr

/-- Result of Sun2000Client.readBattery (dataclass BatteryValues). -/
structure BatteryValues where
  Status : Option String
  ChargeDischargePower : Int
  StateOfChargePercent : Int
  deriving DecidableEq, Repr

/-- The excess-power combination of PowerScheduler.readHouseActivePower:
gridPower is known only when the meter status is "online", batteryPower
only when the battery status is "running"; when both are known the
four-quadrant if/elif chain of the source combines them, otherwise the
result stays None. -/
def readHouseActivePower (meter : MeterValues) (battery : BatteryValues) :
    Option Int :=
  match (if meter.Status = some "online" then some meter.ActivePower else none),
        (if battery.Status = some "running"
          then some battery.ChargeDischargePower else none) with
  | some gridPower, some batteryPower =>
    if batteryPower < 0 ∧ gridPower ≤ 0 then some (batteryPower + gridPower)
    else if 0 ≤ batteryPower ∧ gridPower ≤ 0 then some (gridPower + batteryPower)
    else if batteryPower < 0 ∧ 0 ≤ gridPower then some (batteryPower - gridPower)
    else if 0 ≤ batteryPower ∧ 0 ≤ gridPower then some (gridPower + batteryPower)
    else some gridPower
  | _, _ => none

/-- Sun2000Client.__decode_uint_be: big-endian unsigned integer of a
byte window (int.from_bytes(value, byteorder="big", signed=False)). -/
def decode_uint_be (bs : List Nat) : Nat :=
  bs.foldl (fun acc b => acc * 256 + b) 0

/-- Sun2000Client.__decode_int_be: big-endian two-complement signed
integer of a byte window (int.from_bytes(..., signed=True)). -/
def decode_int_be (bs : List Nat) : Int :=
  if decode_uint_be bs < 2 ^ (8 * bs.length - 1) then (decode_uint_be bs : Int)
  else (decode_uint_be bs : Int) - 2 ^ (8 * bs.length)

/-- The MeterStatus code table of Sun2000Client.readPowerMeter
({0: offline, 1: online}); dict.get yields None for other codes. -/
def MeterStatus (code : Nat) : Option String :=
  if code = 0 then some "offline"
  else if code = 1 then some "online"
  else none

/-- Sun2000Client.calculateRegisterOffset: byte range of a register
value inside a bulk-read buffer (1 length byte, then 2 bytes per
register); raises ValueError when the requested register precedes the
first register of the read. -/
def calculateRegisterOffset (firstRegister readRegister valueSize : Nat) :
    Except String (Nat × Nat) :=
  if firstRegister > readRegister then Except.error "ValueError"
  else Except.ok (1 + (readRegister - firstRegister) * 2,
                  1 + valueSize + (readRegister - firstRegister) * 2)

/-- Python slicing bs[start:stop] on a byte list. -/
def sliceBytes (bs : List Nat) (start stop : Nat) : List Nat :=
  (bs.take stop).drop start

/-- The decoding part of Sun2000Client.readPowerMeter, applied to the
encoded bulk-read buffer (registers 37100 .. 37114): meter status is
the unsigned 16-bit word of register 37100, active power the signed
32-bit value of register 37113. -/
def readPowerMeter (buf : List Nat) : Except String MeterValues :=
  match calculateRegisterOffset 37100 37100 2,
        calculateRegisterOffset 37100 37113 4 with
  | Except.error e, _ => Except.error e
  | _, Except.error e => Except.error e
  | Except.ok statusSlice, Except.ok powerSlice =>
    Except.ok
      { Status := MeterStatus
          (decode_uint_be (sliceBytes buf statusSlice.1 statusSlice.2)),
        ActivePower :=
          decode_int_be (sliceBytes buf powerSlice.1 powerSlice.2) }

example :
    (schedule idealResp (some 2000)
      ⟨[⟨"A", 800, 0, "off"⟩, ⟨"B", 1800, 0, "off"⟩], 0⟩).1.devices.map
        (fun d => d.times_wattage_exceeded) = [1, 1] := by decide

example :
    (scheduleRun idealResp (List.replicate 4 (some 2000))
      ⟨[⟨"A", 800, 0, "off"⟩, ⟨"B", 1800, 0, "off"⟩], 0⟩).devices.map
        (fun d => d.state) = ["on", "off"] := by decide

example :
    (scheduleRun idealResp [some (-50), some (-50)]
      ⟨[⟨"A", 800, 0, "on"⟩, ⟨"B", 1800, 0, "on"⟩], 0⟩).devices.map
        (fun d => d.state) = ["on", "on"] := by decide

example :
    (scheduleRun idealResp [some (-50), some (-50), some (-50)]
      ⟨[⟨"A", 800, 0, "on"⟩, ⟨"B", 1800, 0, "on"⟩], 0⟩).devices.map
        (fun d => d.state) = ["on", "off"] := by decide

example :
    readPowerMeter ([31, 0, 1] ++ List.replicate 24 0 ++ [255, 255, 255, 156])
      = Except.ok ⟨some "online", -100⟩ := by rfl

example : readHouseActivePower ⟨some "online", 100⟩ ⟨some "running", -50, 0⟩
    = some (-150) := by decide

/-- The branch of schedule taken for a known sample inside the dead
zone: state unchanged apart from times_power_negative being reset. -/
theorem schedule_dead_zone_eq (resp : String → String) (p : Int)
    (s : SchedulerState)
    (h1 : NEGATIVE_POWER_SAFETY_MARGIN ≤ p)
    (h2 : p ≤ POSITIVE_POWER_SAFETY_MARGIN) :
    schedule resp (some p) s =
      ({ devices := s.devices, times_power_negative := 0 }, []) := by
  have hpos : ¬ (POSITIVE_POWER_SAFETY_MARGIN < p) := by omega
  have hneg : ¬ (p < NEGATIVE_POWER_SAFETY_MARGIN) := by omega
  simp only [schedule, if_neg hpos, if_neg hneg]

/-- The branch of schedule taken for a surplus sample. -/
theorem schedule_surplus_eq (resp : String → String) (p : Int)
    (s : SchedulerState) (hpos : POSITIVE_POWER_SAFETY_MARGIN < p) :
    schedule resp (some p) s =
      ({ devices := if (scanTurnOn resp p 0 s.devices).2.isEmpty
           then (scanTurnOn resp p 0 s.devices).1
           else resetAllDeviceCounters (scanTurnOn resp p 0 s.devices).1,
         times_power_negative := 0 },
       (scanTurnOn resp p 0 s.devices).2) := by
  simp only [schedule, if_pos hpos]

/-- The branch of schedule taken for a deficit sample while the streak
counter has not yet strictly exceeded POWER_OFF_HYSTERESIS: only the
counter is incremented. -/
theorem schedule_deficit_wait_eq (resp : String → String) (p : Int)
    (s : SchedulerState) (hneg : p < NEGATIVE_POWER_SAFETY_MARGIN)
    (hh : ¬ POWER_OFF_HYSTERESIS < s.times_power_negative + 1) :
    schedule resp (some p) s =
      ({ devices := s.devices,
         times_power_negative := s.times_power_negative + 1 }, []) := by
  have e1 : POSITIVE_POWER_SAFETY_MARGIN = 100 := rfl
  have e2 : NEGATIVE_POWER_SAFETY_MARGIN = -20 := rfl
  have hpos : ¬ (POSITIVE_POWER_SAFETY_MARGIN < p) := by omega
  simp only [schedule, if_neg hpos, if_pos hneg, if_neg hh]

/-- The branch of schedule taken for a deficit sample once the
incremented streak counter strictly exceeds POWER_OFF_HYSTERESIS: the
reverse scan runs and the counter is reset. -/
theorem schedule_deficit_fire_eq (resp : String → String) (p : Int)
    (s : SchedulerState) (hneg : p < NEGATIVE_POWER_SAFETY_MARGIN)
    (hh : POWER_OFF_HYSTERESIS < s.times_power_negative + 1) :
    schedule resp (some p) s =
      ({ devices := (scanTurnOff resp 0 s.devices).1,
         times_power_negative := 0 },
       (scanTurnOff resp 0 s.devices).2) := by
  have e1 : POSITIVE_POWER_SAFETY_MARGIN = 100 := rfl
  have e2 : NEGATIVE_POWER_SAFETY_MARGIN = -20 := rfl
  have hpos : ¬ (POSITIVE_POWER_SAFETY_MARGIN < p) := by omega
  simp only [schedule, if_neg hpos, if_pos hneg, if_pos hh]

/-- When no device of the list is recorded "on", the reverse scan of
the deficit branch changes nothing and emits nothing. -/
theorem scanTurnOff_no_on (resp : String → String) (i : Nat)
    (devs : List ScheduleableDevice) (h : ∀ d ∈ devs, d.state ≠ "on") :
    scanTurnOff resp i devs = (devs, []) := by
  induction devs generalizing i with
  | nil => rfl
  | cons d rest ih =>
    have hd : d.state ≠ "on" := h d (List.mem_cons_self d rest)
    have hrest : ∀ x ∈ rest, x.state ≠ "on" :=
      fun x hx => h x (List.mem_cons_of_mem d hx)
    simp [scanTurnOff, ih (i + 1) hrest, hd]

/-- When position j holds a device recorded "on" and every later
position does not, the reverse scan of the deficit branch emits exactly
the turnOff of (absolute) index i + j. -/
theorem scanTurnOff_found (resp : String → String) (i j : Nat)
    (devs : List ScheduleableDevice) (d : ScheduleableDevice)
    (hj : devs[j]? = some d) (hon : d.state = "on")
    (hafter : ∀ dk ∈ devs.drop (j + 1), dk.state ≠ "on") :
    (scanTurnOff resp i devs).2 = [SchedulerAction.turnOff (i + j)] := by
  induction devs generalizing i j with
  | nil => simp at hj
  | cons a rest ih =>
    cases j with
    | zero =>
      have ha : a = d := by simpa using hj
      subst ha
      have hrest : ∀ x ∈ rest, x.state ≠ "on" := by simpa using hafter
      simp [scanTurnOff, scanTurnOff_no_on resp (i + 1) rest hrest, hon]
    | succ j0 =>
      have hj0 : rest[j0]? = some d := by simpa using hj
      have hafter0 : ∀ dk ∈ rest.drop (j0 + 1), dk.state ≠ "on" := by
        simpa using hafter
      have ih0 := ih (i + 1) j0 hj0 hafter0
      have hidx : i + 1 + j0 = i + (j0 + 1) := by omega
      rw [hidx] at ih0
      simp [scanTurnOff, ih0]

/-- The reverse scan of the deficit branch emits either nothing or one
turnOff of a device recorded "on" before the scan. -/
theorem scanTurnOff_acts (resp : String → String) (i : Nat)
    (devs : List ScheduleableDevice) :
    (scanTurnOff resp i devs).2 = [] ∨
    ∃ j d, devs[j]? = some d ∧ d.state = "on" ∧
      (scanTurnOff resp i devs).2 = [SchedulerAction.turnOff (i + j)] := by
  induction devs generalizing i with
  | nil => left; rfl
  | cons a rest ih =>
    rcases ih (i + 1) with hemp | ⟨j, d, hj, hon, hacts⟩
    · by_cases ha : a.state = "on"
      · right
        refine ⟨0, a, by simp, ha, ?_⟩
        simp [scanTurnOff, hemp, ha]
      · left
        simp [scanTurnOff, hemp, ha]
    · right
      refine ⟨j + 1, d, by simpa using hj, hon, ?_⟩
      have hidx : i + 1 + j = i + (j + 1) := by omega
      rw [hidx] at hacts
      simp [scanTurnOff, hacts]

/-- The forward scan of the surplus branch emits either nothing or one
turnOn of a device recorded "off" before the scan. -/
theorem scanTurnOn_acts (resp : String → String) (p : Int) (i : Nat)
    (devs : List ScheduleableDevice) :
    (scanTurnOn resp p i devs).2 = [] ∨
    ∃ j d, devs[j]? = some d ∧ d.state = "off" ∧
      (scanTurnOn resp p i devs).2 = [SchedulerAction.turnOn (i + j)] := by
  induction devs generalizing i with
  | nil => left; rfl
  | cons a rest ih =>
    by_cases hoff : a.state = "off"
    · by_cases hfire :
        POWER_ON_HYSTERESIS ≤ (bumpCounter p a).times_wattage_exceeded
      · right
        refine ⟨0, a, by simp, hoff, ?_⟩
        simp [scanTurnOn, hoff, hfire]
      · rcases ih (i + 1) with hemp | ⟨j, d, hj, hd, hacts⟩
        · left
          simp [scanTurnOn, hoff, hfire, hemp]
        · right
          refine ⟨j + 1, d, by simpa using hj, hd, ?_⟩
          have hidx : i + 1 + j = i + (j + 1) := by omega
          rw [hidx] at hacts
          simp [scanTurnOn, hoff, hfire, hacts]
    · rcases ih (i + 1) with hemp | ⟨j, d, hj, hd, hacts⟩
      · left
        simp [scanTurnOn, hoff, hemp]
      · right
        refine ⟨j + 1, d, by simpa using hj, hd, ?_⟩
        have hidx : i + 1 + j = i + (j + 1) := by omega
        rw [hidx] at hacts
        simp [scanTurnOn, hoff, hacts]

/-- C3: calling schedule with an unknown excess-power sample (None) is
a pure no-op: the scheduler state (devices, their recorded states and
counters, and times_power_negative) is returned unchanged and no
actuator is invoked. -/
theorem schedule_none_noop (resp : String → String) (s : SchedulerState) :
    schedule resp none s = (s, []) := rfl

/-- C7: for a known sample inside the dead zone
(NEGATIVE_POWER_SAFETY_MARGIN ≤ p ≤ POSITIVE_POWER_SAFETY_MARGIN),
schedule changes no device (states and counters untouched), emits no
actuation, and resets times_power_negative to 0. -/
theorem dead_zone_resets_streak_only (resp : String → String) (p : Int)
    (s : SchedulerState)
    (h1 : NEGATIVE_POWER_SAFETY_MARGIN ≤ p)
    (h2 : p ≤ POSITIVE_POWER_SAFETY_MARGIN) :
    schedule resp (some p) s =
      ({ devices := s.devices, times_power_negative := 0 }, []) :=
  schedule_dead_zone_eq resp p s h1 h2

/-- Witness for C7 at p = 50 with a nonempty device list and a nonzero
streak counter. -/
theorem dead_zone_resets_streak_only_witness :
    (NEGATIVE_POWER_SAFETY_MARGIN ≤ (50 : Int)) ∧
    ((50 : Int) ≤ POSITIVE_POWER_SAFETY_MARGIN) ∧
    schedule idealResp (some 50) ⟨[⟨"A", 800, 2, "off"⟩], 7⟩ =
      ({ devices := [⟨"A", 800, 2, "off"⟩], times_power_negative := 0 }, []) :=
  ⟨by decide, by decide,
    dead_zone_resets_streak_only idealResp 50 ⟨[⟨"A", 800, 2, "off"⟩], 7⟩
      (by decide) (by decide)⟩

/-- C8: readHouseActivePower produces a numeric excess power exactly
when the meter status is "online" and the battery status is "running";
in every other case it returns the unknown marker None. -/
theorem excess_power_known_iff_statuses_ok (meter : MeterValues)
    (battery : BatteryValues) :
    (readHouseActivePower meter battery).isSome ↔
      (meter.Status = some "online" ∧ battery.Status = some "running") := by
  unfold readHouseActivePower
  by_cases h1 : meter.Status = some "online" <;>
    by_cases h2 : battery.Status = some "running" <;>
      simp [h1, h2] <;> split_ifs <;> simp

/-- Counterexample for C6: no single linear combination
a * gridPower + b * batteryPower + c reproduces the excess-power
computation on all known inputs, so no one fixed arithmetic rule is
applied consistently across the four sign quadrants. -/
theorem excess_power_no_single_linear_rule :
    ¬ ∃ a b c : Int, ∀ g p : Int,
      readHouseActivePower ⟨some "online", g⟩ ⟨some "running", p, 0⟩ =
        some (a * g + b * p + c) := by
  rintro ⟨a, b, c, h⟩
  have h1 := h 0 0
  have h2 := h 1 0
  have h3 := h 0 1
  have h4 := h 1 (-1)
  simp [readHouseActivePower] at h1 h2 h3 h4
  omega

/-- C6 amended: the computation is piecewise, not one fixed rule. It
equals gridPower + batteryPower whenever batteryPower ≥ 0 or
gridPower ≤ 0, but equals batteryPower - gridPower in the quadrant
where the battery is discharging while feeding to grid
(batteryPower < 0 and gridPower > 0). -/
theorem excess_power_piecewise_rule (g p soc : Int) :
    readHouseActivePower ⟨some "online", g⟩ ⟨some "running", p, soc⟩ =
      some (if p < 0 ∧ 0 < g then p - g else g + p) := by
  show (if p < 0 ∧ g ≤ 0 then some (p + g)
    else if 0 ≤ p ∧ g ≤ 0 then some (g + p)
    else if p < 0 ∧ 0 ≤ g then some (p - g)
    else if 0 ≤ p ∧ 0 ≤ g then some (g + p)
    else some g) = some (if p < 0 ∧ 0 < g then p - g else g + p)
  split_ifs <;> simp only [Option.some.injEq] <;> omega

/-- C9: decoding a 31-byte meter bulk-read buffer whose status word
(bytes 1 to 2) is 0x0001 and whose active-power word (bytes 27 to 30)
is 0xFFFFFF9C yields status "online" and active power -100: the status
register 37100 sits at byte offset 1, the active-power register 37113
at byte offset 1 + 2 * (37113 - 37100) = 27. -/
theorem readPowerMeter_decode (buf : List Nat)
    (hlen : buf.length = 31)
    (hstatus : sliceBytes buf 1 3 = [0, 1])
    (hpower : sliceBytes buf 27 31 = [255, 255, 255, 156]) :
    readPowerMeter buf = Except.ok ⟨some "online", -100⟩ := by
  unfold readPowerMeter calculateRegisterOffset
  norm_num
  rw [hstatus, hpower]
  exact ⟨by decide, by decide⟩

/-- Witness for C9 on a concrete 31-byte buffer. -/
theorem readPowerMeter_decode_witness :
    (([31, 0, 1] ++ List.replicate 24 0 ++ [255, 255, 255, 156] :
        List Nat).length = 31) ∧
    (sliceBytes ([31, 0, 1] ++ List.replicate 24 0 ++ [255, 255, 255, 156])
      1 3 = [0, 1]) ∧
    (sliceBytes ([31, 0, 1] ++ List.replicate 24 0 ++ [255, 255, 255, 156])
      27 31 = [255, 255, 255, 156]) ∧
    readPowerMeter ([31, 0, 1] ++ List.replicate 24 0 ++ [255, 255, 255, 156])
      = Except.ok ⟨some "online", -100⟩ :=
  ⟨by decide, by decide, by decide,
    readPowerMeter_decode ([31, 0, 1] ++ List.replicate 24 0 ++ [255, 255, 255, 156])
      (by decide) (by decide) (by decide)⟩

/-- Counterexample for C1: with A and B both "on" and
times_power_negative starting at 0, two consecutive cycles at p = -50
(which reach but do not exceed POWER_OFF_HYSTERESIS = 2) turn nothing
off: the second cycle emits no actuation and both devices are still
"on", contrary to the claim that B turns Off on cycle 2. -/
theorem off_branch_cycle2_no_turnoff :
    ((schedule idealResp (some (-50))
        (schedule idealResp (some (-50))
          ⟨[⟨"A", 800, 0, "on"⟩, ⟨"B", 1800, 0, "on"⟩], 0⟩).1).2 = []) ∧
    ((schedule idealResp (some (-50))
        (schedule idealResp (some (-50))
          ⟨[⟨"A", 800, 0, "on"⟩, ⟨"B", 1800, 0, "on"⟩], 0⟩).1).1.devices.map
        (fun d => d.state) = ["on", "on"]) ∧
    ((schedule idealResp (some (-50))
        (schedule idealResp (some (-50))
          ⟨[⟨"A", 800, 0, "on"⟩, ⟨"B", 1800, 0, "on"⟩],
            0⟩).1).1.times_power_negative = 2) := by decide

/-- Counterexample for C2: with devices [A(800), B(1800)] both "off"
and p = 2000, already the first cycle increments the exceedCounter of
B, the device after the first Off device A, while A is still "off":
the surplus scan does evaluate devices after a non-firing Off device. -/
theorem surplus_scan_increments_later_device :
    ((schedule idealResp (some 2000)
        ⟨[⟨"A", 800, 0, "off"⟩, ⟨"B", 1800, 0, "off"⟩], 0⟩).1.devices.map
        (fun d => d.times_wattage_exceeded) = [1, 1]) ∧
    ((schedule idealResp (some 2000)
        ⟨[⟨"A", 800, 0, "off"⟩, ⟨"B", 1800, 0, "off"⟩], 0⟩).1.devices.map
        (fun d => d.state) = ["off", "off"]) := by decide

/-- C2 amended: in the surplus branch the scan stops only at a firing
device; every earlier Off device whose wattage fits has its counter
incremented too. In the scenario [A(800), B(1800)], p = 2000: after 3
cycles both counters are 3 and both devices still "off"; on cycle 4
the turnOn of A (index 0) is emitted, A is recorded "on", B stays
"off", and every counter is reset to 0. -/
theorem surplus_scenario_four_cycles :
    ((scheduleRun idealResp (List.replicate 3 (some 2000))
        ⟨[⟨"A", 800, 0, "off"⟩, ⟨"B", 1800, 0, "off"⟩], 0⟩).devices.map
        (fun d => d.times_wattage_exceeded) = [3, 3]) ∧
    ((scheduleRun idealResp (List.replicate 3 (some 2000))
        ⟨[⟨"A", 800, 0, "off"⟩, ⟨"B", 1800, 0, "off"⟩], 0⟩).devices.map
        (fun d => d.state) = ["off", "off"]) ∧
    ((schedule idealResp (some 2000)
        (scheduleRun idealResp (List.replicate 3 (some 2000))
          ⟨[⟨"A", 800, 0, "off"⟩, ⟨"B", 1800, 0, "off"⟩], 0⟩)).2 =
      [SchedulerAction.turnOn 0]) ∧
    ((scheduleRun idealResp (List.replicate 4 (some 2000))
        ⟨[⟨"A", 800, 0, "off"⟩, ⟨"B", 1800, 0, "off"⟩], 0⟩).devices.map
        (fun d => d.state) = ["on", "off"]) ∧
    ((scheduleRun idealResp (List.replicate 4 (some 2000))
        ⟨[⟨"A", 800, 0, "off"⟩, ⟨"B", 1800, 0, "off"⟩], 0⟩).devices.map
        (fun d => d.times_wattage_exceeded) = [0, 0]) := by decide

/-- C1 amended: in the deficit branch the reverse-order shed happens
once the incremented negativeStreakCounter strictly exceeds
POWER_OFF_HYSTERESIS (the source tests with >, not >=), i.e. on the
(POWER_OFF_HYSTERESIS + 1)-th consecutive deficit cycle: then the first
device in reverse priority order recorded "on" is turned off and
times_power_negative is reset to 0, and the counter is reset even when
no device is recorded "on". -/
theorem off_branch_sheds_after_hysteresis_exceeded (resp : String → String)
    (p : Int) (s : SchedulerState)
    (h1 : p < NEGATIVE_POWER_SAFETY_MARGIN)
    (h2 : POWER_OFF_HYSTERESIS < s.times_power_negative + 1) :
    ((schedule resp (some p) s).1.times_power_negative = 0) ∧
    ((∀ d ∈ s.devices, d.state ≠ "on") →
      schedule resp (some p) s = (⟨s.devices, 0⟩, [])) ∧
    (∀ j d, s.devices[j]? = some d → d.state = "on" →
      (∀ dk ∈ s.devices.drop (j + 1), dk.state ≠ "on") →
      (schedule resp (some p) s).2 = [SchedulerAction.turnOff j]) := by
  rw [schedule_deficit_fire_eq resp p s h1 h2]
  refine ⟨rfl, ?_, ?_⟩
  · intro h
    rw [scanTurnOff_no_on resp 0 s.devices h]
  · intro j d hj hon hafter
    have hscan := scanTurnOff_found resp 0 j s.devices d hj hon hafter
    simpa using hscan

/-- Witness for C1 amended: A and B both "on", streak counter already
at POWER_OFF_HYSTERESIS = 2 (i.e. the third consecutive deficit cycle):
the cycle emits the turnOff of B (index 1, the first "on" device in
reverse order) and resets the streak counter. -/
theorem off_branch_sheds_witness :
    ((-50 : Int) < NEGATIVE_POWER_SAFETY_MARGIN) ∧
    (POWER_OFF_HYSTERESIS < 2 + 1) ∧
    ((schedule idealResp (some (-50))
        ⟨[⟨"A", 800, 0, "on"⟩, ⟨"B", 1800, 0, "on"⟩],
          2⟩).1.times_power_negative = 0) ∧
    ((schedule idealResp (some (-50))
        ⟨[⟨"A", 800, 0, "on"⟩, ⟨"B", 1800, 0, "on"⟩], 2⟩).2 =
      [SchedulerAction.turnOff 1]) :=
  ⟨by decide, by decide,
    (off_branch_sheds_after_hysteresis_exceeded idealResp (-50)
      ⟨[⟨"A", 800, 0, "on"⟩, ⟨"B", 1800, 0, "on"⟩], 2⟩
      (by decide) (by decide)).1,
    (off_branch_sheds_after_hysteresis_exceeded idealResp (-50)
      ⟨[⟨"A", 800, 0, "on"⟩, ⟨"B", 1800, 0, "on"⟩], 2⟩
      (by decide) (by decide)).2.2 1 ⟨"B", 1800, 0, "on"⟩
      (by decide) (by decide) (by decide)⟩

/-- C4: every single call to schedule emits at most one actuator
invocation: the emitted list is empty, one turnOn, or one turnOff -
never two invocations and never a turnOn together with a turnOff. -/
theorem schedule_at_most_one_action (resp : String → String)
    (power : Option Int) (s : SchedulerState) :
    (schedule resp power s).2 = [] ∨
    (∃ j, (schedule resp power s).2 = [SchedulerAction.turnOn j]) ∨
    (∃ j, (schedule resp power s).2 = [SchedulerAction.turnOff j]) := by
  cases power with
  | none => left; rfl
  | some p =>
    by_cases hpos : POSITIVE_POWER_SAFETY_MARGIN < p
    · rw [schedule_surplus_eq resp p s hpos]
      rcases scanTurnOn_acts resp p 0 s.devices with h | ⟨j, d, hj, hd, h⟩
      · left; exact h
      · right; left; exact ⟨0 + j, h⟩
    · by_cases hneg : p < NEGATIVE_POWER_SAFETY_MARGIN
      · by_cases hh : POWER_OFF_HYSTERESIS < s.times_power_negative + 1
        · rw [schedule_deficit_fire_eq resp p s hneg hh]
          rcases scanTurnOff_acts resp 0 s.devices with h | ⟨j, d, hj, hd, h⟩
          · left; exact h
          · right; right; exact ⟨0 + j, h⟩
        · rw [schedule_deficit_wait_eq resp p s hneg hh]
          left; rfl
      · rw [schedule_dead_zone_eq resp p s (by omega) (by omega)]
        left; rfl

/-- C5: whenever the scheduler turns any device on, immediately
afterwards the exceedCounter of every device (the fired one included)
is 0. -/
theorem turnOn_resets_all_counters (resp : String → String)
    (power : Option Int) (s : SchedulerState) (k : Nat)
    (h : SchedulerAction.turnOn k ∈ (schedule resp power s).2) :
    ∀ d ∈ (schedule resp power s).1.devices, d.times_wattage_exceeded = 0 := by
  cases power with
  | none => simp [schedule] at h
  | some p =>
    by_cases hpos : POSITIVE_POWER_SAFETY_MARGIN < p
    · rw [schedule_surplus_eq resp p s hpos] at h ⊢
      have hne : (scanTurnOn resp p 0 s.devices).2.isEmpty = false := by
        cases hscan : (scanTurnOn resp p 0 s.devices).2 with
        | nil => rw [hscan] at h; simp at h
        | cons x xs => rfl
      simp only [hne, Bool.false_eq_true, if_false]
      intro d hd
      simp only [resetAllDeviceCounters, List.mem_map] at hd
      obtain ⟨d0, hd0, hd0eq⟩ := hd
      rw [← hd0eq]
    · by_cases hneg : p < NEGATIVE_POWER_SAFETY_MARGIN
      · by_cases hh : POWER_OFF_HYSTERESIS < s.times_power_negative + 1
        · rw [schedule_deficit_fire_eq resp p s hneg hh] at h
          rcases scanTurnOff_acts resp 0 s.devices with hnil | ⟨j, d, hj, hd, hacts⟩
          · rw [hnil] at h
            simp at h
          · rw [hacts] at h
            simp at h
        · rw [schedule_deficit_wait_eq resp p s hneg hh] at h
          simp at h
      · rw [schedule_dead_zone_eq resp p s (by omega) (by omega)] at h
        simp at h

/-- Witness for C5: one device "off" with counter 3 and p = 2000: the
cycle fires turnOn 0 and afterwards every counter is 0. -/
theorem turnOn_resets_all_counters_witness :
    (SchedulerAction.turnOn 0 ∈
      (schedule idealResp (some 2000) ⟨[⟨"A", 800, 3, "off"⟩], 0⟩).2) ∧
    (∀ d ∈ (schedule idealResp (some 2000)
        ⟨[⟨"A", 800, 3, "off"⟩], 0⟩).1.devices,
      d.times_wattage_exceeded = 0) :=
  ⟨by decide,
    turnOn_resets_all_counters idealResp (some 2000)
      ⟨[⟨"A", 800, 3, "off"⟩], 0⟩ 0 (by decide)⟩

/-- C10: turnOn is only ever invoked on a device whose recorded state
is exactly "off", and turnOff only on a device whose recorded state is
exactly "on"; hence a device recorded "unknown" is never actuated. -/
theorem actuation_respects_recorded_state (resp : String → String)
    (power : Option Int) (s : SchedulerState) (k : Nat) :
    (SchedulerAction.turnOn k ∈ (schedule resp power s).2 →
      (s.devices[k]?).map (fun d => d.state) = some "off") ∧
    (SchedulerAction.turnOff k ∈ (schedule resp power s).2 →
      (s.devices[k]?).map (fun d => d.state) = some "on") := by
  constructor
  · intro h
    cases power with
    | none => simp [schedule] at h
    | some p =>
      by_cases hpos : POSITIVE_POWER_SAFETY_MARGIN < p
      · rw [schedule_surplus_eq resp p s hpos] at h
        rcases scanTurnOn_acts resp p 0 s.devices with hnil | ⟨j, d, hj, hd, hacts⟩
        · rw [hnil] at h
          simp at h
        · rw [hacts] at h
          have hk : k = j := by simpa using h
          rw [hk, hj]
          simp [hd]
      · by_cases hneg : p < NEGATIVE_POWER_SAFETY_MARGIN
        · by_cases hh : POWER_OFF_HYSTERESIS < s.times_power_negative + 1
          · rw [schedule_deficit_fire_eq resp p s hneg hh] at h
            rcases scanTurnOff_acts resp 0 s.devices with hnil | ⟨j, d, hj, hd, hacts⟩
            · rw [hnil] at h
              simp at h
            · rw [hacts] at h
              simp at h
          · rw [schedule_deficit_wait_eq resp p s hneg hh] at h
            simp at h
        · rw [schedule_dead_zone_eq resp p s (by omega) (by omega)] at h
          simp at h
  · intro h
    cases power with
    | none => simp [schedule] at h
    | some p =>
      by_cases hpos : POSITIVE_POWER_SAFETY_MARGIN < p
      · rw [schedule_surplus_eq resp p s hpos] at h
        rcases scanTurnOn_acts resp p 0 s.devices with hnil | ⟨j, d, hj, hd, hacts⟩
        · rw [hnil] at h
          simp at h
        · rw [hacts] at h
          simp at h
      · by_cases hneg : p < NEGATIVE_POWER_SAFETY_MARGIN
        · by_cases hh : POWER_OFF_HYSTERESIS < s.times_power_negative + 1
          · rw [schedule_deficit_fire_eq resp p s hneg hh] at h
            rcases scanTurnOff_acts resp 0 s.devices with hnil | ⟨j, d, hj, hd, hacts⟩
            · rw [hnil] at h
              simp at h
            · rw [hacts] at h
              have hk : k = j := by simpa using h
              rw [hk, hj]
              simp [hd]
          · rw [schedule_deficit_wait_eq resp p s hneg hh] at h
            simp at h
        · rw [schedule_dead_zone_eq resp p s (by omega) (by omega)] at h
          simp at h

/-- Witness for C10: a turnOn fired on a device recorded "off" and a
turnOff fired on a device recorded "on", at their respective concrete
states. -/
theorem actuation_respects_recorded_state_witness :
    (SchedulerAction.turnOn 0 ∈
      (schedule idealResp (some 2000) ⟨[⟨"A", 800, 3, "off"⟩], 0⟩).2) ∧
    (((⟨[⟨"A", 800, 3, "off"⟩], 0⟩ :
        SchedulerState).devices[0]?).map (fun d => d.state) = some "off") ∧
    (SchedulerAction.turnOff 1 ∈
      (schedule idealResp (some (-50))
        ⟨[⟨"A", 800, 0, "off"⟩, ⟨"B", 1800, 0, "on"⟩], 2⟩).2) ∧
    (((⟨[⟨"A", 800, 0, "off"⟩, ⟨"B", 1800, 0, "on"⟩], 2⟩ :
        SchedulerState).devices[1]?).map (fun d => d.state) = some "on") :=
  ⟨by decide,
    (actuation_respects_recorded_state idealResp (some 2000)
      ⟨[⟨"A", 800, 3, "off"⟩], 0⟩ 0).1 (by decide),
    by decide,
    (actuation_respects_recorded_state idealResp (some (-50))
      ⟨[⟨"A", 800, 0, "off"⟩, ⟨"B", 1800, 0, "on"⟩], 2⟩ 1).2 (by decide)⟩
